import Mathlib

/-!
Shallow embedding of the `openapi-servers` filesystem service
(`servers/filesystem/main.py`) and verification of its specification.

Modelling conventions:
* File contents and edit texts are `List Char` (Python `str` values).
* Paths are Lean `String`s.  OS-level home expansion and symlink
  resolution (`pathlib.Path(...).resolve()`) happen outside the program;
  the embedding receives the already-resolved canonical path, exactly the
  form the containment check inspects.
* `str.lower()` is modelled by `String.toLower` / `Char.toLower`
  (ASCII case folding; all paths in scope are ASCII).
* Timestamps are natural numbers; `datetime.now()` is sampled twice per
  delete request in the source (once inside `load_confirmations`, once in
  the handler), so the model takes both sample values as parameters.
* The on-disk filesystem is an association list from absolute path to
  entry; the confirmation store is an association list from token to
  confirmation record (a Python `dict` has unique keys; the list model
  only ever consults the first binding of a key).
-/

/-- Python `needle in haystack` on strings: `needle` occurs contiguously
in `haystack` (the empty string occurs in everything). -/
def pyIn (needle haystack : List Char) : Bool :=
  needle.isPrefixOf haystack ||
    match haystack with
    | [] => false
    | _ :: t => pyIn needle t

/-- Python `s.replace(old, new, 1)`: replace the first (leftmost)
occurrence of `old` in `s` by `new`; `s` unchanged when `old` is absent.
An empty `old` matches at position 0. -/
def pyReplace1 (s old new : List Char) : List Char :=
  if old.isPrefixOf s then new ++ s.drop old.length
  else
    match s with
    | [] => []
    | c :: t => c :: pyReplace1 t old new

/-- Python `s.lower()` (ASCII case folding), computed structurally on the
character list so that concrete instances evaluate. -/
def pyLower (s : String) : String :=
  ⟨s.data.map Char.toLower⟩

/-- Python `s.startswith(pre)`. -/
def pyStartsWith (s pre : String) : Bool :=
  pre.data.isPrefixOf s.data

/-- Python falsiness of a string (`if tok:` is false exactly for `""`). -/
def pyIsEmpty (s : String) : Bool :=
  s.data.isEmpty

/-- The `EditOperation` schema: exact text to find and its replacement. -/
structure EditOperation where
  oldText : List Char
  newText : List Char
  deriving DecidableEq, Repr

/-- Error taxonomy of the service (the `HTTPException`s raised by
`main.py`, distinguished by status code and detail message). -/
inductive ApiError where
  /-- 403 "Access Denied": resolved path outside the allowed directories;
  carries the requested path and the configured allow-list. -/
  | accessDenied (requestedPath : String) (allowedDirs : List String)
  /-- 404 path / file not found. -/
  | notFound
  /-- 400 "Invalid or expired confirmation token." (token absent from the
  loaded store). -/
  | invalidToken
  /-- 400 "Confirmation token has expired." -/
  | tokenExpired
  /-- 400 request parameters (path, recursive) do not match the original
  request for this token. -/
  | parameterMismatch
  /-- 400 "Directory not empty" on a non-recursive directory delete. -/
  | directoryNotEmpty
  /-- 400 "Edit failed: oldText not found in content", carrying the first
  50 characters of the unmatched text (`edit.oldText[:50]`). -/
  | editNotFound (unmatchedHead : List Char)
  /-- 400 path is neither a file nor a directory. -/
  | notFileOrDir
  /-- 400 "Provided path is not a directory". -/
  | invalidArgument
  /-- 500 catch-all raised from an OS-level exception. -/
  | ioFailure
  /-- 500 produced when a handler's bare `except Exception` catches an
  `HTTPException` raised inside its own `try` block (FastAPI's
  `HTTPException` subclasses `Exception`): the caller sees the generic
  "Failed to ..." 500 whose detail merely embeds the stringified inner
  exception, so the inner error's distinct kind is lost. -/
  | exceptionWrapped (inner : ApiError)
  deriving DecidableEq, Repr

instance {ε α : Type} [DecidableEq ε] [DecidableEq α] :
    DecidableEq (Except ε α) := fun x y =>
  match x, y with
  | .ok a, .ok b =>
    if h : a = b then isTrue (by rw [h]) else isFalse (fun hc => by cases hc; exact h rfl)
  | .ok _, .error _ => isFalse (fun hc => by cases hc)
  | .error _, .ok _ => isFalse (fun hc => by cases hc)
  | .error e, .error f =>
    if h : e = f then isTrue (by rw [h]) else isFalse (fun hc => by cases hc; exact h rfl)

/-- The edit loop of `edit_file`: apply edits sequentially to the
progressively-modified text; fail as soon as an edit's `oldText` is not a
substring of the current text, reporting its first 50 characters. -/
def applyEdits : List Char → List EditOperation → Except ApiError (List Char)
  | text, [] => .ok text
  | text, e :: rest =>
    if pyIn e.oldText text then
      applyEdits (pyReplace1 text e.oldText e.newText) rest
    else
      .error (.editNotFound (e.oldText.take 50))

/-- Predicate for `old` occurring in `s` at index `i`. -/
def occursAt (old s : List Char) (i : Nat) : Bool :=
  old.isPrefixOf (s.drop i)

/-- The `normalize_path` guard (main.py lines 39–52), applied to the already
expanded and symlink-resolved canonical form of the requested path: the
path is accepted iff its lower-cased string starts with the lower-cased
string of some allowed directory; otherwise a 403 Access Denied error
carrying the requested path and the allow-list is raised. -/
def normalize_path (allowedDirectories : List String) (requested : String) :
    Except ApiError String :=
  if allowedDirectories.any (fun a => pyStartsWith (pyLower requested) (pyLower a)) then
    .ok requested
  else
    .error (.accessDenied requested allowedDirectories)

/-- Spec-side notion, for comparison with `normalize_path` only: path `p`
is beneath root `root` when `p` is the root itself or extends it at a
path-separator boundary (case-insensitive, matching the code's
case-insensitive comparison). -/
def specBeneath (root p : String) : Bool :=
  pyLower p == pyLower root || pyStartsWith (pyLower p) (pyLower root ++ "/")

/-- An entry of the host filesystem: a regular file with text content, or
a directory. -/
inductive FsEntry where
  | file (content : List Char)
  | dir
  deriving DecidableEq, Repr

/-- The host filesystem: finite map from absolute path to entry
(association list; first binding of a key is the authoritative one). -/
abbrev Fs := List (String × FsEntry)

/-- Model of `path.exists()`. -/
def fsExists (fs : Fs) (p : String) : Bool :=
  (List.lookup p fs).isSome

/-- Model of `path.is_file()`. -/
def fsIsFile (fs : Fs) (p : String) : Bool :=
  match List.lookup p fs with
  | some (.file _) => true
  | _ => false

/-- Model of `path.is_dir()`. -/
def fsIsDir (fs : Fs) (p : String) : Bool :=
  match List.lookup p fs with
  | some .dir => true
  | _ => false

/-- Model of `path.read_text()`: the content when `p` is a regular file. -/
def fsRead (fs : Fs) (p : String) : Option (List Char) :=
  match List.lookup p fs with
  | some (.file c) => some c
  | _ => none

/-- Remove the single entry at `p` (`path.unlink()` / `path.rmdir()`). -/
def fsErase (fs : Fs) (p : String) : Fs :=
  fs.filter (fun e => e.1 != p)

/-- Model of `shutil.rmtree(p)`: remove `p` and every entry below it. -/
def fsRmtree (fs : Fs) (p : String) : Fs :=
  fs.filter (fun e => e.1 != p && !(pyStartsWith e.1 (p ++ "/")))

/-- Does the directory `p` have any entry strictly below it?  (`rmdir`
raises `OSError` exactly when it does.) -/
def fsHasChildren (fs : Fs) (p : String) : Bool :=
  fs.any (fun e => pyStartsWith e.1 (p ++ "/"))

/-- Model of `path.write_text(content)`: create or overwrite the file at `p`. -/
def fsWrite (fs : Fs) (p : String) (content : List Char) : Fs :=
  (p, .file content) :: fsErase fs p

/-- A pending deletion confirmation: the requested path, the recursive
flag, and the absolute expiry time (`now + TTL`). -/
structure Confirmation where
  path : String
  recursive : Bool
  expiry : Nat
  deriving DecidableEq, Repr

/-- The persisted confirmation store (`.pending_confirmations.json`):
finite map from token to confirmation record. -/
abbrev Store := List (String × Confirmation)

/-- The constant `CONFIRMATION_TTL_SECONDS` (main.py line 149). -/
def CONFIRMATION_TTL_SECONDS : Nat := 60

/-- The loader `load_confirmations()` (main.py lines 151–173): read the persisted
store, dropping every record whose expiry is not strictly in the future
of the load-time clock sample. -/
def load_confirmations (store : Store) (now : Nat) : Store :=
  store.filter (fun e => now < e.2.expiry)

/-- Python `del store[tok]`. -/
def storeDel (s : Store) (tok : String) : Store :=
  s.filter (fun e => e.1 != tok)

/-- Python `store[tok] = c`: bind `tok` to `c`, replacing any previous
binding (the list position of the binding is immaterial to lookups). -/
def storeSet (s : Store) (tok : String) (c : Confirmation) : Store :=
  (tok, c) :: storeDel s tok

/-- Startup cleanup (main.py lines 191–197): the confirmation file left
over from a prior run is deleted, so the store a restarted process sees
is empty no matter what was persisted before. -/
def startupStore (_prior : Store) : Store := []

/-- Python truthiness of the optional `confirmation_token` field
(`if data.confirmation_token:`): absent and empty-string tokens both
select the phase-1 branch. -/
def truthyToken : Option String → Option String
  | none => none
  | some t => if pyIsEmpty t then none else some t

/-- Arguments the `edit_file` handler passes to the external
`difflib.unified_diff` call (main.py lines 285–290).  The two texts stand
for their `splitlines(keepends=True)` forms, which are losslessly
determined by (and concatenate back to) the texts. -/
structure DiffArgs where
  fromfile : String
  tofile : String
  fromText : List Char
  toText : List Char
  deriving DecidableEq, Repr

/-- Outcome of a handler: success message, dry-run diff, phase-1
confirmation-required response, or error. -/
inductive OpResult where
  | ok (message : String)
  | diffOut (d : DiffArgs)
  | confirm (message : String) (confirmationToken : String) (expiresAt : Nat)
  | err (e : ApiError)
  deriving DecidableEq, Repr

/-- The `EditFileRequest` schema. -/
structure EditFileReq where
  path : String
  edits : List EditOperation
  dryRun : Bool
  deriving DecidableEq, Repr

/-- The `edit_file` handler (main.py lines 259–301): guard the path, read
the file (its 404/403 raises sit in the read-try's own except clauses and
so keep their kinds), apply the edits sequentially, then either return
the diff (dry run, file untouched) or persist the fully-edited text.
The edit loop's 400 `HTTPException` (line 278) is raised inside the
try at line 275 and caught by the bare `except Exception` at line 299,
so it surfaces as the generic 500 "Failed to write edited file ...",
modelled by `exceptionWrapped`. -/
def edit_file (allowedDirectories : List String) (fs : Fs) (data : EditFileReq) :
    OpResult × Fs :=
  match normalize_path allowedDirectories data.path with
  | .error e => (.err e, fs)
  | .ok path =>
    match List.lookup path fs with
    | none => (.err .notFound, fs)
    | some .dir => (.err .ioFailure, fs)
    | some (.file original) =>
      match applyEdits original data.edits with
      | .error e => (.err (.exceptionWrapped e), fs)
      | .ok modified =>
        if data.dryRun then
          (.diffOut { fromfile := "a/" ++ data.path, tofile := "b/" ++ data.path,
                      fromText := original, toText := modified }, fs)
        else
          (.ok ("Successfully edited file " ++ data.path), fsWrite fs path modified)

/-- The `WriteFileRequest` schema. -/
structure WriteFileReq where
  path : String
  content : List Char
  deriving DecidableEq, Repr

/-- The `write_file` handler (main.py lines 241–252): guard the path,
then overwrite (writing over a directory raises the generic failure). -/
def write_file (allowedDirectories : List String) (fs : Fs) (data : WriteFileReq) :
    OpResult × Fs :=
  match normalize_path allowedDirectories data.path with
  | .error e => (.err e, fs)
  | .ok path =>
    match List.lookup path fs with
    | some .dir => (.err .ioFailure, fs)
    | _ => (.ok ("Successfully wrote to " ++ data.path), fsWrite fs path data.content)

/-- The `DeletePathRequest` schema. -/
structure DeletePathReq where
  path : String
  recursive : Bool
  confirmation_token : Option String
  deriving DecidableEq, Repr

/-- The `delete_path` handler (main.py lines 395–490).  `store` is the
persisted confirmation store before the request; `tLoad` and `tNow` are
the two `datetime.now` samples taken inside `load_confirmations` and in
the handler body (in that order); `freshToken` is the value the random
draw `secrets.token_hex(3)[:5]` produces if phase 1 is reached.  Returns
the response, the filesystem after the request, and the persisted store
after the request (unchanged whenever the handler raises before any
`save_confirmations` call).  The raises before the try at line 435
(invalid token, expired, mismatch, the phase-1 404) keep their distinct
kinds; the 404/400 `HTTPException`s raised inside that try after the
token is consumed (lines 439, 453, 458) are caught by the bare
`except Exception` at line 462 and surface as the generic 500
"Failed to delete ...", modelled by `exceptionWrapped`. -/
def delete_path (allowedDirectories : List String) (fs : Fs) (store : Store)
    (tLoad tNow : Nat) (freshToken : String) (data : DeletePathReq) :
    OpResult × Fs × Store :=
  let pending := load_confirmations store tLoad
  match normalize_path allowedDirectories data.path with
  | .error e => (.err e, fs, store)
  | .ok path =>
    match truthyToken data.confirmation_token with
    | some tok =>
      match List.lookup tok pending with
      | none => (.err .invalidToken, fs, store)
      | some cd =>
        if tNow > cd.expiry then
          (.err .tokenExpired, fs, storeDel pending tok)
        else if cd.path != data.path || cd.recursive != data.recursive then
          (.err .parameterMismatch, fs, store)
        else
          -- token consumed and the store saved before the deletion attempt
          let pending' := storeDel pending tok
          if !(fsExists fs path) then
            (.err (.exceptionWrapped .notFound), fs, pending')
          else if fsIsFile fs path then
            (.ok ("Successfully deleted file: " ++ data.path), fsErase fs path, pending')
          else if fsIsDir fs path then
            if data.recursive then
              (.ok ("Successfully deleted directory recursively: " ++ data.path),
               fsRmtree fs path, pending')
            else if fsHasChildren fs path then
              (.err (.exceptionWrapped .directoryNotEmpty), fs, pending')
            else
              (.ok ("Successfully deleted empty directory: " ++ data.path),
               fsErase fs path, pending')
          else (.err (.exceptionWrapped .notFileOrDir), fs, pending')
    | none =>
      if !(fsExists fs path) then (.err .notFound, fs, store)
      else
        let expiry := tNow + CONFIRMATION_TTL_SECONDS
        (.confirm ("`Confirm deletion of file: " ++ data.path ++ " with token "
            ++ freshToken ++ "`") freshToken expiry,
         fs, storeSet pending freshToken ⟨data.path, data.recursive, expiry⟩)

/-- A node of the directory tree beneath the search base: a file name or
a directory name with its children. -/
inductive FsTree where
  | file (name : String)
  | dir (name : String) (children : List FsTree)

/-- Names of the immediate subdirectories. -/
def dirNames : List FsTree → List String
  | [] => []
  | .file _ :: rest => dirNames rest
  | .dir n _ :: rest => n :: dirNames rest

/-- Names of the immediate regular files. -/
def fileNames : List FsTree → List String
  | [] => []
  | .file n :: rest => n :: fileNames rest
  | .dir _ _ :: rest => fileNames rest

mutual
/-- Model of `os.walk(root)` (top-down): the triple for `root` itself followed by
the triples of every subdirectory, in order.  `children` are the entries
of `root`. -/
def osWalk (root : String) (children : List FsTree) :
    List (String × List String × List String) :=
  (root, dirNames children, fileNames children) :: osWalkChildren root children

/-- The walk triples contributed by the subdirectories among `entries`
of the directory `root`. -/
def osWalkChildren (root : String) : List FsTree →
    List (String × List String × List String)
  | [] => []
  | .file _ :: rest => osWalkChildren root rest
  | .dir n cs :: rest => osWalk (root ++ "/" ++ n) cs ++ osWalkChildren root rest
end

/-- Does `f` accept some suffix of the list?  (Helper giving `*` its
"match any run" semantics by trying every split point.) -/
def globStarAux (f : List Char → Bool) : List Char → Bool
  | [] => f []
  | c :: s' => f (c :: s') || globStarAux f s'

/-- One `fnmatch`-style match of one glob component against one path
component (`*` matches any run, `?` any single character; character
classes do not occur in this code base). -/
def globMatch : List Char → List Char → Bool
  | [], s => s.isEmpty
  | '*' :: ps, s => globStarAux (globMatch ps) s
  | '?' :: ps, s =>
    match s with
    | [] => false
    | _ :: s' => globMatch ps s'
  | pc :: ps, s =>
    match s with
    | [] => false
    | c :: s' => pc == c && globMatch ps s'

/-- Split a character list at every `'/'` (accumulator holds the current
component reversed). -/
def splitOnSlash : List Char → List Char → List (List Char)
  | [], acc => [acc.reverse]
  | '/' :: t, acc => acc.reverse :: splitOnSlash t []
  | c :: t, acc => splitOnSlash t (c :: acc)

/-- The non-empty `/`-separated components of a path or pattern. -/
def pathComponents (s : String) : List String :=
  ((splitOnSlash s.data []).filter (fun c => !c.isEmpty)).map (fun c => ⟨c⟩)

/-- Model of `pathlib.PurePath(p).match(pat)`: a relative pattern matches the same
number of trailing components of `p`; an absolute pattern must match the
entire path.  (Case-sensitive, as on POSIX.) -/
def pathMatch (p : String) (pat : String) : Bool :=
  let pc := pathComponents pat
  let rc := pathComponents p
  if pc.isEmpty then false
  else if pyStartsWith pat "/" then
    pc.length == rc.length &&
      (List.zip rc pc).all (fun z => globMatch z.2.data z.1.data)
  else
    decide (pc.length ≤ rc.length) &&
      (List.zip (rc.drop (rc.length - pc.length)) pc).all
        (fun z => globMatch z.2.data z.1.data)

/-- The `search_files` handler's walk loop (main.py lines 371–387),
beneath the already-validated base path: for every walked directory, skip
its result contributions when the directory matches an exclude pattern,
otherwise collect every file or directory name at that level that
contains the search pattern case-insensitively and whose full path
starts with one of the allowed directories. -/
def search_files (allowedDirectories : List String) (basePath : String)
    (children : List FsTree) (pat : String) (excludePatterns : List String) :
    List String :=
  (osWalk basePath children).flatMap (fun entry =>
    if excludePatterns.any (fun ep => pathMatch entry.1 ep) then []
    else
      (entry.2.2 ++ entry.2.1).filterMap (fun item =>
        if pyIn (pyLower pat).data (pyLower item).data then
          if allowedDirectories.any (fun a => pyStartsWith (entry.1 ++ "/" ++ item) a) then
            some (entry.1 ++ "/" ++ item)
          else none
        else none))

/-- The JSON value of the `matches` field: the sentinel replaces an empty
result list (`results or ["No matches found"]`). -/
def search_files_matches (results : List String) : List String :=
  if results.isEmpty then ["No matches found"] else results

/-- Is the delete target in a state the confirmed deletion branch can
remove (a file, or a directory that is either empty or requested
recursively)? -/
def deletable (fs : Fs) (p : String) (recursive : Bool) : Bool :=
  fsIsFile fs p || (fsIsDir fs p && (recursive || !fsHasChildren fs p))

/-- The `read_file` handler (main.py lines 222–237): guard the path,
then return the whole file.  `FileNotFoundError` and `PermissionError`
are caught by the read-try's own except clauses (raised there, they
propagate out of the function), so missing files keep the 404 kind;
reading a directory raises `IsADirectoryError`, which only the generic
500 catches. -/
def read_file (allowedDirectories : List String) (fs : Fs) (path : String) :
    Except ApiError (List Char) :=
  match normalize_path allowedDirectories path with
  | .error e => .error e
  | .ok p =>
    match List.lookup p fs with
    | some (.file c) => .ok c
    | some .dir => .error .ioFailure
    | none => .error .notFound

/-- Successive ancestor paths of the components `cs` below the (already
consumed) prefix `pre`: for `pre = ""` and components of `/data/a`,
`["/data", "/data/a"]`. -/
def joinAncestors (pre : String) : List String → List String
  | [] => []
  | c :: rest => (pre ++ "/" ++ c) :: joinAncestors (pre ++ "/" ++ c) rest

/-- Every ancestor of `p`, outermost first, `p` itself last. -/
def ancestorPaths (p : String) : List String :=
  joinAncestors "" (pathComponents p)

/-- Walk the ancestor chain creating missing directories; fail if any
position on the chain is occupied by a regular file. -/
def fsMkdirsGo : Fs → List String → Option Fs
  | fs, [] => some fs
  | fs, a :: rest =>
    match List.lookup a fs with
    | some (.file _) => none
    | some .dir => fsMkdirsGo fs rest
    | none => fsMkdirsGo ((a, .dir) :: fs) rest

/-- Model of `path.mkdir(parents=True, exist_ok=True)`: create `p` and
all missing ancestors; an obstructing regular file anywhere on the chain
makes the OS call fail with nothing created (every level above an
existing file necessarily exists already, so a failing chain creates no
directory). -/
def fsMkdirs (fs : Fs) (p : String) : Option Fs :=
  fsMkdirsGo fs (ancestorPaths p)

/-- The `create_directory` handler (main.py lines 304–318): guard the
path, then `mkdir(parents=True, exist_ok=True)`; an OS failure surfaces
as the generic 500. -/
def create_directory (allowedDirectories : List String) (fs : Fs) (path : String) :
    OpResult × Fs :=
  match normalize_path allowedDirectories path with
  | .error e => (.err e, fs)
  | .ok p =>
    match fsMkdirs fs p with
    | none => (.err .ioFailure, fs)
    | some fs' => (.ok ("Successfully created directory " ++ path), fs')

/-- When `q` is an immediate child of directory `p`, its name; `none`
for `p` itself, deeper descendants and unrelated paths. -/
def immediateChildName (p q : String) : Option String :=
  if pyStartsWith q (p ++ "/") then
    let rest := q.data.drop (p ++ "/").data.length
    if rest.contains '/' then none
    else if rest.isEmpty then none
    else some ⟨rest⟩
  else none

/-- The `list_directory` handler (main.py lines 321–338): guard the
path, reject non-directories with the 400 "Provided path is not a
directory" (raised outside any try, so its kind survives), then list the
immediate children as {name, type} pairs in enumeration order. -/
def list_directory (allowedDirectories : List String) (fs : Fs) (path : String) :
    Except ApiError (List (String × String)) :=
  match normalize_path allowedDirectories path with
  | .error e => .error e
  | .ok p =>
    if fsIsDir fs p then
      .ok (fs.filterMap (fun e =>
        match immediateChildName p e.1 with
        | some name =>
          some (name, match e.2 with | .file _ => "file" | .dir => "directory")
        | none => none))
    else .error .invalidArgument

/-- A node of the JSON tree `directory_tree` returns: {name, type} plus
a `children` field exactly for directories. -/
inductive TreeNode where
  | file (name : String)
  | dir (name : String) (children : List TreeNode)

/-- Model of `build_tree` (main.py lines 348–358): each entry becomes a
node, directories recursing into their children, in enumeration order. -/
def buildTree : List FsTree → List TreeNode
  | [] => []
  | .file n :: rest => .file n :: buildTree rest
  | .dir n cs :: rest => .dir n (buildTree cs) :: buildTree rest

/-- The `directory_tree` handler (main.py lines 341–360): guard the
path, then recursively build the tree of the base directory's entries
(`children` is the snapshot of those entries). -/
def directory_tree (allowedDirectories : List String) (children : List FsTree)
    (path : String) : Except ApiError (List TreeNode) :=
  match normalize_path allowedDirectories path with
  | .error e => .error e
  | .ok _ => .ok (buildTree children)

/-- The `search_files` route (main.py lines 363–387): guard the base
path, then run the walk loop and apply the no-match sentinel. -/
def search_files_handler (allowedDirectories : List String)
    (children : List FsTree) (path pat : String)
    (excludePatterns : List String) : Except ApiError (List String) :=
  match normalize_path allowedDirectories path with
  | .error e => .error e
  | .ok p =>
    .ok (search_files_matches
      (search_files allowedDirectories p children pat excludePatterns))

/-- One result row of `search_content`: file path, 1-based line number,
stripped line text. -/
structure ContentMatch where
  file_path : String
  line_number : Nat
  line_content : List Char
  deriving DecidableEq, Repr

/-- Python `str.isspace` characters relevant to `strip()`. -/
def pyIsSpace (c : Char) : Bool :=
  c == ' ' || c == '\t' || c == '\n' || c == '\r' ||
    c == Char.ofNat 11 || c == Char.ofNat 12

/-- Python `line.strip()`. -/
def pyStrip (s : List Char) : List Char :=
  ((s.dropWhile pyIsSpace).reverse.dropWhile pyIsSpace).reverse

/-- Split file content into lines at `'\n'` (the terminator is dropped;
a final unterminated chunk is a line only when non-empty, matching line
iteration of a text file). -/
def fileLinesAux : List Char → List Char → List (List Char)
  | acc, [] => if acc.isEmpty then [] else [acc.reverse]
  | acc, '\n' :: t => acc.reverse :: fileLinesAux [] t
  | acc, c :: t => fileLinesAux (c :: acc) t

/-- The lines of a file's content. -/
def fileLines (content : List Char) : List (List Char) :=
  fileLinesAux [] content

/-- The scan loop of `search_content` (main.py lines 577–594): for each
readable file, record every 1-based line whose lower-cased text contains
the lower-cased query, with the line stripped in the output. -/
def contentScan (files : List (String × List Char)) (query : String) :
    List ContentMatch :=
  files.flatMap (fun f =>
    (fileLines f.2).enum.filterMap (fun il =>
      if pyIn (pyLower query).data (il.2.map Char.toLower) then
        some ⟨f.1, il.1 + 1, pyStrip il.2⟩
      else none))

/-- The `search_content` handler (main.py lines 563–596): guard the base
path, reject non-directories with the distinct 400 (raised outside any
try), then scan the files the glob iterator yields.  The iterator and
per-file readability are host `pathlib` behaviour, so the readable
matched files arrive as the `files` snapshot (unreadable files are
skipped with a logged warning). -/
def search_content (allowedDirectories : List String) (baseIsDir : Bool)
    (files : List (String × List Char)) (path query : String) :
    Except ApiError (List ContentMatch) :=
  match normalize_path allowedDirectories path with
  | .error e => .error e
  | .ok _ =>
    if baseIsDir then .ok (contentScan files query)
    else .error .invalidArgument

/-- The final path component (`os.path.basename` of a normalized
path). -/
def pyBasename (p : String) : String :=
  (pathComponents p).getLastD ""

/-- Same-filesystem rename (`os.rename`, the primitive `shutil.move`
uses here): an entry at `dst` is replaced, and `src` with everything
below it is re-rooted at `dst`. -/
def fsRename (fs : Fs) (src dst : String) : Fs :=
  (fsErase fs dst).map (fun e =>
    if e.1 == src then (dst, e.2)
    else if pyStartsWith e.1 (src ++ "/") then
      (dst ++ (⟨e.1.data.drop src.data.length⟩ : String), e.2)
    else e)

/-- The `move_path` handler (main.py lines 493–513): guard source then
destination; the 404 for a missing source (line 505) is raised inside
the try at line 503, so the bare `except Exception` at line 512 turns it
into the generic 500, modelled by `exceptionWrapped`.  `shutil.move`
into an existing directory targets `destination/basename(source)` and
fails (generic 500) if that target already exists; otherwise it renames,
replacing an existing destination file. -/
def move_path (allowedDirectories : List String) (fs : Fs)
    (source_path destination_path : String) : OpResult × Fs :=
  match normalize_path allowedDirectories source_path with
  | .error e => (.err e, fs)
  | .ok s =>
    match normalize_path allowedDirectories destination_path with
    | .error e => (.err e, fs)
    | .ok d =>
      if !(fsExists fs s) then (.err (.exceptionWrapped .notFound), fs)
      else if fsIsDir fs d then
        if fsExists fs (d ++ "/" ++ pyBasename s) then (.err .ioFailure, fs)
        else
          (.ok ("Successfully moved '" ++ source_path ++ "' to '"
             ++ destination_path ++ "'"),
           fsRename fs s (d ++ "/" ++ pyBasename s))
      else
        (.ok ("Successfully moved '" ++ source_path ++ "' to '"
           ++ destination_path ++ "'"),
         fsRename fs s d)

/-- The metadata fields the filesystem map determines; sizes and the
three timestamps come from the host `stat` call outside the embedding
and carry no information about this model's state. -/
structure MetadataOut where
  path : String
  type : String
  deriving DecidableEq, Repr

/-- The `get_metadata` handler (main.py lines 516–560): guard the path;
the 404 for a missing path (line 525) is raised inside the try at line
523, so the bare `except Exception` at line 559 surfaces it as the
generic 500, modelled by `exceptionWrapped`; otherwise return the
metadata record for the entry. -/
def get_metadata (allowedDirectories : List String) (fs : Fs) (path : String) :
    Except ApiError MetadataOut :=
  match normalize_path allowedDirectories path with
  | .error e => .error e
  | .ok p =>
    match List.lookup p fs with
    | none => .error (.exceptionWrapped .notFound)
    | some (.file _) => .ok ⟨p, "file"⟩
    | some .dir => .ok ⟨p, "directory"⟩

-- ----------------------------------------------------------------------
-- Theorems
-- ----------------------------------------------------------------------

-- Sanity checks of the Python semantics on concrete values.
example : pyIn "".toList "abc".toList = true := by decide
example : pyIn "bc".toList "abc".toList = true := by decide
example : pyIn "cb".toList "abc".toList = false := by decide
example : pyReplace1 "abab".toList "ab".toList "X".toList = "Xab".toList := by decide
example : pyReplace1 "abc".toList "".toList "X".toList = "Xabc".toList := by decide
example : pyReplace1 "abc".toList "zz".toList "X".toList = "abc".toList := by decide

theorem pyIn_nil_false (n : List Char) (c : Char) (t : List Char)
    (h : pyIn n (c :: t) = false) : n.isPrefixOf (c :: t) = false ∧ pyIn n t = false := by
  unfold pyIn at h
  rcases Bool.or_eq_false_iff.mp h with ⟨h1, h2⟩
  exact ⟨h1, h2⟩

/-- When `old` occurs in `s`, `pyReplace1` splices `new` in place of the
occurrence at the least index. -/
theorem pyReplace1_first_occurrence (s old new : List Char)
    (h : pyIn old s = true) :
    ∃ i, occursAt old s i = true ∧ (∀ j, j < i → occursAt old s j = false) ∧
      pyReplace1 s old new = s.take i ++ new ++ s.drop (i + old.length) := by
  induction s with
  | nil =>
    have hp : old.isPrefixOf ([] : List Char) = true := by
      unfold pyIn at h
      cases hx : old.isPrefixOf ([] : List Char) with
      | false => simp [hx] at h
      | true => rfl
    refine ⟨0, ?_, ?_, ?_⟩
    · simpa [occursAt] using hp
    · intro j hj; omega
    · have hold : old = [] := by
        cases old with
        | nil => rfl
        | cons a as => simp [List.isPrefixOf] at hp
      unfold pyReplace1
      simp [hp, hold]
  | cons c t ih =>
    cases hp : old.isPrefixOf (c :: t) with
    | true =>
      refine ⟨0, by simpa [occursAt] using hp, ?_, ?_⟩
      · intro j hj; omega
      · unfold pyReplace1
        simp [hp]
    | false =>
      have ht : pyIn old t = true := by
        unfold pyIn at h
        rcases Bool.or_eq_true_iff.mp h with h1 | h2
        · rw [hp] at h1; exact absurd h1 (by simp)
        · cases t with
          | nil => exact h2
          | cons _ _ => exact h2
      obtain ⟨i, hocc, hleast, heq⟩ := ih ht
      refine ⟨i + 1, ?_, ?_, ?_⟩
      · simpa [occursAt] using hocc
      · intro j hj
        cases j with
        | zero => simpa [occursAt] using hp
        | succ j' => simpa [occursAt] using hleast j' (by omega)
      · unfold pyReplace1
        rw [if_neg (by simp [hp])]
        simp only [heq]
        simp [List.take_succ_cons, List.drop_succ_cons]
        have hidx : i + 1 + old.length = i + old.length + 1 := by omega
        rw [hidx]
        simp [List.drop_succ_cons]

-- Sanity checks of the delete handler on concrete states.
example :
    delete_path ["/data"] [("/data/f", .file [])] [] 0 0 "ab12c"
      ⟨"/data/f", false, none⟩ =
      (.confirm "`Confirm deletion of file: /data/f with token ab12c`" "ab12c" 60,
       [("/data/f", .file [])], [("ab12c", ⟨"/data/f", false, 60⟩)]) := by decide

example :
    delete_path ["/data"] [("/data/f", .file [])] [("ab12c", ⟨"/data/f", false, 60⟩)]
      10 10 "zzzzz" ⟨"/data/f", false, some "ab12c"⟩ =
      (.ok "Successfully deleted file: /data/f", [], []) := by decide

example :
    delete_path ["/data"] [("/data/f", .file [])] [("ab12c", ⟨"/data/f", false, 60⟩)]
      10 10 "zzzzz" ⟨"/data/f", true, some "ab12c"⟩ =
      (.err .parameterMismatch, [("/data/f", .file [])],
       [("ab12c", ⟨"/data/f", false, 60⟩)]) := by decide

example :
    delete_path ["/data"] [("/data/f", .file [])] [] 0 0 "ab12c"
      ⟨"/etc/passwd", false, none⟩ =
      (.err (.accessDenied "/etc/passwd" ["/data"]), [("/data/f", .file [])], []) := by
  decide

/-- Looking a key up after a filter still finds the same (first) value
when that value survives the filter. -/
theorem lookup_filter_eq_some {α : Type} (k : String) (v : α)
    (p : String × α → Bool) :
    ∀ s : List (String × α), List.lookup k s = some v → p (k, v) = true →
      List.lookup k (s.filter p) = some v := by
  intro s
  induction s with
  | nil => intro h _; simp at h
  | cons hd t ih =>
    intro h hp
    by_cases hk : k = hd.1
    · have hv : hd.2 = v := by
        simp [List.lookup, hk] at h
        simpa using h
      have hhd : hd = (k, v) := by
        cases hd; simp_all
      subst hhd
      simp [List.filter, hp, List.lookup]
    · have hne : (k == hd.1) = false := by simp [hk]
      have h' : List.lookup k t = some v := by
        simpa [List.lookup, hne] using h
      cases hph : p hd with
      | true => simpa [List.filter, hph, List.lookup, hne] using ih h' hp
      | false => simpa [List.filter, hph] using ih h' hp

/-- A key absent before a filter is absent after it. -/
theorem lookup_filter_eq_none_of_none {α : Type} (k : String)
    (p : String × α → Bool) :
    ∀ s : List (String × α), List.lookup k s = none →
      List.lookup k (s.filter p) = none := by
  intro s
  induction s with
  | nil => intro _; simp
  | cons hd t ih =>
    intro h
    have hne : (k == hd.1) = false := by
      cases hx : (k == hd.1) with
      | true => simp [List.lookup, hx] at h
      | false => rfl
    have h' : List.lookup k t = none := by
      simpa [List.lookup, hne] using h
    cases hph : p hd with
    | true => simpa [List.filter, hph, List.lookup, hne] using ih h'
    | false => simpa [List.filter, hph] using ih h'

/-- Filtering away every binding of a key makes lookups of it fail. -/
theorem lookup_filter_ne_self {α : Type} (k : String) :
    ∀ s : List (String × α), List.lookup k (s.filter (fun e => e.1 != k)) = none := by
  intro s
  induction s with
  | nil => simp
  | cons hd t ih =>
    cases hph : (hd.1 != k) with
    | true =>
      have hne : (k == hd.1) = false :=
        beq_eq_false_iff_ne.mpr (fun hc => (bne_iff_ne.mp hph) hc.symm)
      simpa [List.filter, hph, List.lookup, hne] using ih
    | false => simpa [List.filter, hph] using ih

/-- A key that only has elapsed records in the persisted store is gone
after `load_confirmations`. -/
theorem lookup_load_none_of_elapsed (store : Store) (tok : String) (t : Nat)
    (h : ∀ c : Confirmation, (tok, c) ∈ store → c.expiry ≤ t) :
    List.lookup tok (load_confirmations store t) = none := by
  induction store with
  | nil => simp [load_confirmations]
  | cons hd rest ih =>
    have ih' := ih (fun c hc => h c (List.mem_cons_of_mem _ hc))
    cases hph : (t < hd.2.expiry : Bool) with
    | true =>
      have hne : (tok == hd.1) = false := by
        cases hx : (tok == hd.1) with
        | false => rfl
        | true =>
          have : tok = hd.1 := by simpa using hx
          have hmem : (tok, hd.2) ∈ hd :: rest := by
            rw [this]; exact List.mem_cons_self _ _
          have := h hd.2 hmem
          simp at hph
          omega
      simpa [load_confirmations, List.filter, hph, List.lookup, hne] using ih'
    | false =>
      simpa [load_confirmations, List.filter, hph] using ih'

/-- A live record survives `load_confirmations` and is still the first
binding of its token. -/
theorem lookup_load_eq_some (store : Store) (tok : String) (c : Confirmation)
    (t : Nat) (h : List.lookup tok store = some c) (hlive : t < c.expiry) :
    List.lookup tok (load_confirmations store t) = some c := by
  exact lookup_filter_eq_some tok c _ store h (by simpa using hlive)

-- Path.match sanity checks against CPython behaviour.
example : pathMatch "/data/sub" "sub" = true := by decide
example : pathMatch "/data/sub/inner" "sub" = false := by decide
example : pathMatch "/data/b.py" "*.py" = true := by decide
example : pathMatch "/data/b.py" "/data/*.py" = true := by decide
example : pathMatch "/other/b.py" "/data/*.py" = false := by decide
example : pathMatch "/data/a/b.py" "a/*.py" = true := by decide

/-- A key every binding of which the filter predicate rejects cannot be
looked up after the filter. -/
theorem lookup_filter_of_key_false {α : Type} (k : String)
    (pred : String × α → Bool) (hpred : ∀ v, pred (k, v) = false) :
    ∀ s : List (String × α), List.lookup k (s.filter pred) = none := by
  intro s
  induction s with
  | nil => simp
  | cons hd t ih =>
    cases hph : pred hd with
    | true =>
      have hne : (k == hd.1) = false := by
        cases hx : (k == hd.1) with
        | false => rfl
        | true =>
          have hk : k = hd.1 := by simpa using hx
          have : pred hd = false := by
            have := hpred hd.2
            rw [hk] at this
            simpa using this
          rw [this] at hph
          cases hph
      simpa [List.filter, hph, List.lookup, hne] using ih
    | false => simpa [List.filter, hph] using ih

/-- Filtering out one key's bindings leaves every other key's first
binding unchanged. -/
theorem lookup_filter_ne_other {α : Type} (k k' : String) (hkk : k' ≠ k) :
    ∀ s : List (String × α),
      List.lookup k' (s.filter (fun e => e.1 != k)) = List.lookup k' s := by
  intro s
  induction s with
  | nil => simp
  | cons hd t ih =>
    cases hph : (hd.1 != k) with
    | true => simp [List.filter, hph, List.lookup, ih]
    | false =>
      have hk : hd.1 = k := by simpa using hph
      have hne : (k' == hd.1) = false := by
        rw [hk]
        simpa using hkk
      simp [List.filter, hph, List.lookup, hne, ih]

/-- The erased path no longer exists. -/
theorem fsExists_fsErase_self (fs : Fs) (p : String) :
    fsExists (fsErase fs p) p = false := by
  simp [fsExists, fsErase, lookup_filter_ne_self]

/-- The root of a removed tree no longer exists. -/
theorem fsExists_fsRmtree_self (fs : Fs) (p : String) :
    fsExists (fsRmtree fs p) p = false := by
  have h := lookup_filter_of_key_false (α := FsEntry) p
    (fun e => e.1 != p && !(pyStartsWith e.1 (p ++ "/")))
    (fun v => by simp) fs
  simp [fsExists, fsRmtree, h]

/-- Reading back a written file yields the written content. -/
theorem fsRead_fsWrite (fs : Fs) (p : String) (content : List Char) :
    fsRead (fsWrite fs p content) p = some content := by
  simp [fsRead, fsWrite, List.lookup]

/-- The edit loop splits over list append as a sequential composition:
the edits of `pre` run first and `rest` continues from their result,
errors propagating. -/
theorem applyEdits_append (pre rest : List EditOperation) :
    ∀ text : List Char,
      applyEdits text (pre ++ rest) =
        (applyEdits text pre).bind (fun cur => applyEdits cur rest) := by
  induction pre with
  | nil => intro text; simp [applyEdits, Except.bind]
  | cons e pre' ih =>
    intro text
    cases h : pyIn e.oldText text with
    | true => simp [applyEdits, h, ih]
    | false => simp [applyEdits, h, Except.bind]

/-- C7: edits apply sequentially against the progressively-modified
text, and each edit replaces exactly the first occurrence of its
`oldText` scanning from the start of the current text — the text before
the first occurrence and everything after the replaced span (including
any later occurrences) are kept verbatim. -/
theorem edits_sequential_first_occurrence :
    (∀ (text : List Char) (e : EditOperation) (rest : List EditOperation),
       pyIn e.oldText text = true →
       applyEdits text (e :: rest) =
         applyEdits (pyReplace1 text e.oldText e.newText) rest) ∧
    (∀ (s old new : List Char), pyIn old s = true →
       ∃ i, occursAt old s i = true ∧ (∀ j, j < i → occursAt old s j = false) ∧
         pyReplace1 s old new = s.take i ++ new ++ s.drop (i + old.length)) := by
  constructor
  · intro text e rest h
    simp [applyEdits, h]
  · exact fun s old new h => pyReplace1_first_occurrence s old new h

/-- Witness for `edits_sequential_first_occurrence` at concrete input. -/
theorem edits_sequential_first_occurrence_witness :
    applyEdits "abab".toList [⟨"ab".toList, "X".toList⟩] =
      applyEdits (pyReplace1 "abab".toList "ab".toList "X".toList) [] ∧
    ∃ i, occursAt "ab".toList "abab".toList i = true ∧
      (∀ j, j < i → occursAt "ab".toList "abab".toList j = false) ∧
      pyReplace1 "abab".toList "ab".toList "X".toList =
        "abab".toList.take i ++ "X".toList ++
          "abab".toList.drop (i + "ab".toList.length) :=
  ⟨edits_sequential_first_occurrence.1 "abab".toList ⟨"ab".toList, "X".toList⟩ []
      (by decide),
   edits_sequential_first_occurrence.2 "abab".toList "ab".toList "X".toList
      (by decide)⟩

/-- C6 (code bug): the edit loop does fail with `editNotFound` carrying
the unmatched text's first 50 characters, exactly as the spec says, but
the handler's bare `except Exception` (main.py line 299) catches the 400
raised at line 278 — `HTTPException` subclasses `Exception` — and
re-raises the generic 500 "Failed to write edited file ...", whose
detail only embeds the stringified inner error.  At the failing input
(file content `hello`, single edit with `oldText = zzz`, with or without
`dryRun`) the caller therefore sees the generic kind, not the distinct
`editNotFound`, and the file is unchanged. -/
theorem edit_oldText_missing_surfaces_generic_500 :
    applyEdits "hello".toList [⟨"zzz".toList, "y".toList⟩] =
      .error (.editNotFound "zzz".toList) ∧
    edit_file ["/data"] [("/data/a.txt", .file "hello".toList)]
        ⟨"/data/a.txt", [⟨"zzz".toList, "y".toList⟩], false⟩ =
      (.err (.exceptionWrapped (.editNotFound "zzz".toList)),
       [("/data/a.txt", .file "hello".toList)]) ∧
    edit_file ["/data"] [("/data/a.txt", .file "hello".toList)]
        ⟨"/data/a.txt", [⟨"zzz".toList, "y".toList⟩], true⟩ =
      (.err (.exceptionWrapped (.editNotFound "zzz".toList)),
       [("/data/a.txt", .file "hello".toList)]) ∧
    (.exceptionWrapped (.editNotFound "zzz".toList) : ApiError) ≠
      .editNotFound "zzz".toList := by
  refine ⟨by decide, by decide, by decide, by decide⟩

/-- C8: a dry-run edit leaves the filesystem unchanged and returns the
diff of original against fully-edited content labelled `a/<path>` and
`b/<path>`; the non-dry-run call writes exactly the text the dry run
compared against, and reading it back yields that text. -/
theorem edit_dry_run_consistency :
    ∀ (allowed : List String) (fs : Fs) (p : String)
      (edits : List EditOperation) (original modified : List Char),
      normalize_path allowed p = .ok p →
      List.lookup p fs = some (.file original) →
      applyEdits original edits = .ok modified →
      edit_file allowed fs ⟨p, edits, true⟩ =
        (.diffOut ⟨"a/" ++ p, "b/" ++ p, original, modified⟩, fs) ∧
      edit_file allowed fs ⟨p, edits, false⟩ =
        (.ok ("Successfully edited file " ++ p), fsWrite fs p modified) ∧
      fsRead (fsWrite fs p modified) p = some modified := by
  intro allowed fs p edits original modified hnorm hread happ
  refine ⟨?_, ?_, fsRead_fsWrite fs p modified⟩
  · simp [edit_file, hnorm, hread, happ]
  · simp [edit_file, hnorm, hread, happ]

/-- Witness for `edit_dry_run_consistency` at concrete input. -/
theorem edit_dry_run_consistency_witness :
    edit_file ["/data"] [("/data/a.txt", .file "hello".toList)]
        ⟨"/data/a.txt", [⟨"hello".toList, "world".toList⟩], true⟩ =
      (.diffOut ⟨"a//data/a.txt", "b//data/a.txt", "hello".toList, "world".toList⟩,
       [("/data/a.txt", .file "hello".toList)]) ∧
    edit_file ["/data"] [("/data/a.txt", .file "hello".toList)]
        ⟨"/data/a.txt", [⟨"hello".toList, "world".toList⟩], false⟩ =
      (.ok "Successfully edited file /data/a.txt",
       fsWrite [("/data/a.txt", .file "hello".toList)] "/data/a.txt" "world".toList) ∧
    fsRead (fsWrite [("/data/a.txt", .file "hello".toList)] "/data/a.txt"
        "world".toList) "/data/a.txt" = some "world".toList :=
  edit_dry_run_consistency ["/data"] [("/data/a.txt", .file "hello".toList)]
    "/data/a.txt" [⟨"hello".toList, "world".toList⟩] "hello".toList "world".toList
    (by decide) (by decide) (by decide)

/-- C1 counterexample: with allowed root `/data/foo`, the resolved path
`/data/foobar` is not beneath the root (no path-separator boundary), yet
`normalize_path` accepts it — containment is a raw string-prefix test,
not segment-aware. -/
theorem normalize_path_not_segment_aware_cex :
    specBeneath "/data/foo" "/data/foobar" = false ∧
    normalize_path ["/data/foo"] "/data/foobar" = .ok "/data/foobar" := by
  constructor
  · decide
  · decide

/-- C1 amended: `normalize_path` rejects with `accessDenied` exactly the
resolved paths whose lower-cased string starts with no allowed root's
lower-cased string (a prefix test that is not segment-aware), and every
operation handler guards each of its path arguments first, propagating
the rejection with no filesystem (or confirmation-store) modification
performed. -/
theorem path_guard_rejection :
    (∀ (allowed : List String) (p : String),
       normalize_path allowed p = .ok p ↔
         allowed.any (fun a => pyStartsWith (pyLower p) (pyLower a)) = true) ∧
    (∀ (allowed : List String) (p : String),
       allowed.any (fun a => pyStartsWith (pyLower p) (pyLower a)) = false →
       normalize_path allowed p = .error (.accessDenied p allowed)) ∧
    (∀ (allowed : List String) (fs : Fs) (store : Store) (tL tN : Nat)
       (ft : String) (data : DeletePathReq) (e : ApiError),
       normalize_path allowed data.path = .error e →
       delete_path allowed fs store tL tN ft data = (.err e, fs, store)) ∧
    (∀ (allowed : List String) (fs : Fs) (data : EditFileReq) (e : ApiError),
       normalize_path allowed data.path = .error e →
       edit_file allowed fs data = (.err e, fs)) ∧
    (∀ (allowed : List String) (fs : Fs) (data : WriteFileReq) (e : ApiError),
       normalize_path allowed data.path = .error e →
       write_file allowed fs data = (.err e, fs)) ∧
    (∀ (allowed : List String) (fs : Fs) (p : String) (e : ApiError),
       normalize_path allowed p = .error e →
       create_directory allowed fs p = (.err e, fs)) ∧
    (∀ (allowed : List String) (fs : Fs) (src dst : String) (e : ApiError),
       normalize_path allowed src = .error e →
       move_path allowed fs src dst = (.err e, fs)) ∧
    (∀ (allowed : List String) (fs : Fs) (src dst : String) (e : ApiError),
       normalize_path allowed src = .ok src →
       normalize_path allowed dst = .error e →
       move_path allowed fs src dst = (.err e, fs)) ∧
    (∀ (allowed : List String) (fs : Fs) (p : String) (e : ApiError),
       normalize_path allowed p = .error e →
       read_file allowed fs p = .error e) ∧
    (∀ (allowed : List String) (fs : Fs) (p : String) (e : ApiError),
       normalize_path allowed p = .error e →
       list_directory allowed fs p = .error e) ∧
    (∀ (allowed : List String) (children : List FsTree) (p : String)
       (e : ApiError),
       normalize_path allowed p = .error e →
       directory_tree allowed children p = .error e) ∧
    (∀ (allowed : List String) (children : List FsTree) (p pat : String)
       (ex : List String) (e : ApiError),
       normalize_path allowed p = .error e →
       search_files_handler allowed children p pat ex = .error e) ∧
    (∀ (allowed : List String) (b : Bool) (files : List (String × List Char))
       (p q : String) (e : ApiError),
       normalize_path allowed p = .error e →
       search_content allowed b files p q = .error e) ∧
    (∀ (allowed : List String) (fs : Fs) (p : String) (e : ApiError),
       normalize_path allowed p = .error e →
       get_metadata allowed fs p = .error e) := by
  refine ⟨?_, ?_, ?_, ?_, ?_, ?_, ?_, ?_, ?_, ?_, ?_, ?_, ?_, ?_⟩
  · intro allowed p
    simp only [normalize_path]
    split
    · simp_all
    · simp_all
  · intro allowed p h
    simp [normalize_path, h]
  · intro allowed fs store tL tN ft data e h
    simp [delete_path, h]
  · intro allowed fs data e h
    simp [edit_file, h]
  · intro allowed fs data e h
    simp [write_file, h]
  · intro allowed fs p e h
    simp [create_directory, h]
  · intro allowed fs src dst e h
    simp [move_path, h]
  · intro allowed fs src dst e hs h
    simp [move_path, hs, h]
  · intro allowed fs p e h
    simp [read_file, h]
  · intro allowed fs p e h
    simp [list_directory, h]
  · intro allowed children p e h
    simp [directory_tree, h]
  · intro allowed children p pat ex e h
    simp [search_files_handler, h]
  · intro allowed b files p q e h
    simp [search_content, h]
  · intro allowed fs p e h
    simp [get_metadata, h]

/-- Witness for `path_guard_rejection` at concrete input. -/
theorem path_guard_rejection_witness :
    normalize_path ["/data"] "/data/a.txt" = .ok "/data/a.txt" ∧
    normalize_path ["/data"] "/etc/passwd" =
      .error (.accessDenied "/etc/passwd" ["/data"]) ∧
    delete_path ["/data"] [("/data/f", .file [])] [] 0 0 "ab12c"
        ⟨"/etc/passwd", false, none⟩ =
      (.err (.accessDenied "/etc/passwd" ["/data"]), [("/data/f", .file [])], []) ∧
    edit_file ["/data"] [("/data/f", .file [])] ⟨"/etc/passwd", [], false⟩ =
      (.err (.accessDenied "/etc/passwd" ["/data"]), [("/data/f", .file [])]) ∧
    write_file ["/data"] [("/data/f", .file [])] ⟨"/etc/passwd", []⟩ =
      (.err (.accessDenied "/etc/passwd" ["/data"]), [("/data/f", .file [])]) ∧
    create_directory ["/data"] [("/data/f", .file [])] "/etc/newdir" =
      (.err (.accessDenied "/etc/newdir" ["/data"]), [("/data/f", .file [])]) ∧
    move_path ["/data"] [("/data/f", .file [])] "/etc/passwd" "/data/g" =
      (.err (.accessDenied "/etc/passwd" ["/data"]), [("/data/f", .file [])]) ∧
    move_path ["/data"] [("/data/f", .file [])] "/data/f" "/etc/passwd" =
      (.err (.accessDenied "/etc/passwd" ["/data"]), [("/data/f", .file [])]) ∧
    read_file ["/data"] [("/data/f", .file [])] "/etc/passwd" =
      .error (.accessDenied "/etc/passwd" ["/data"]) ∧
    list_directory ["/data"] [("/data/f", .file [])] "/etc" =
      .error (.accessDenied "/etc" ["/data"]) ∧
    directory_tree ["/data"] [.file "f"] "/etc" =
      .error (.accessDenied "/etc" ["/data"]) ∧
    search_files_handler ["/data"] [.file "f"] "/etc" "report" [] =
      .error (.accessDenied "/etc" ["/data"]) ∧
    search_content ["/data"] true [] "/etc" "query" =
      .error (.accessDenied "/etc" ["/data"]) ∧
    get_metadata ["/data"] [("/data/f", .file [])] "/etc/passwd" =
      .error (.accessDenied "/etc/passwd" ["/data"]) :=
  ⟨(path_guard_rejection.1 ["/data"] "/data/a.txt").mpr (by decide),
   path_guard_rejection.2.1 ["/data"] "/etc/passwd" (by decide),
   path_guard_rejection.2.2.1 ["/data"] [("/data/f", .file [])] [] 0 0 "ab12c"
     ⟨"/etc/passwd", false, none⟩ (.accessDenied "/etc/passwd" ["/data"])
     (by decide),
   path_guard_rejection.2.2.2.1 ["/data"] [("/data/f", .file [])]
     ⟨"/etc/passwd", [], false⟩ (.accessDenied "/etc/passwd" ["/data"])
     (by decide),
   path_guard_rejection.2.2.2.2.1 ["/data"] [("/data/f", .file [])]
     ⟨"/etc/passwd", []⟩ (.accessDenied "/etc/passwd" ["/data"]) (by decide),
   path_guard_rejection.2.2.2.2.2.1 ["/data"] [("/data/f", .file [])]
     "/etc/newdir" (.accessDenied "/etc/newdir" ["/data"]) (by decide),
   path_guard_rejection.2.2.2.2.2.2.1 ["/data"] [("/data/f", .file [])]
     "/etc/passwd" "/data/g" (.accessDenied "/etc/passwd" ["/data"])
     (by decide),
   path_guard_rejection.2.2.2.2.2.2.2.1 ["/data"] [("/data/f", .file [])]
     "/data/f" "/etc/passwd" (.accessDenied "/etc/passwd" ["/data"])
     (by decide) (by decide),
   path_guard_rejection.2.2.2.2.2.2.2.2.1 ["/data"] [("/data/f", .file [])]
     "/etc/passwd" (.accessDenied "/etc/passwd" ["/data"]) (by decide),
   path_guard_rejection.2.2.2.2.2.2.2.2.2.1 ["/data"] [("/data/f", .file [])]
     "/etc" (.accessDenied "/etc" ["/data"]) (by decide),
   path_guard_rejection.2.2.2.2.2.2.2.2.2.2.1 ["/data"] [.file "f"] "/etc"
     (.accessDenied "/etc" ["/data"]) (by decide),
   path_guard_rejection.2.2.2.2.2.2.2.2.2.2.2.1 ["/data"] [.file "f"] "/etc"
     "report" [] (.accessDenied "/etc" ["/data"]) (by decide),
   path_guard_rejection.2.2.2.2.2.2.2.2.2.2.2.2.1 ["/data"] true [] "/etc"
     "query" (.accessDenied "/etc" ["/data"]) (by decide),
   path_guard_rejection.2.2.2.2.2.2.2.2.2.2.2.2.2 ["/data"]
     [("/data/f", .file [])] "/etc/passwd" (.accessDenied "/etc/passwd" ["/data"])
     (by decide)⟩

/-- Shared core: a phase-2 request whose live, unexpired token matches
the stored parameters and whose target is deletable succeeds, removes
the target, and consumes the token. -/
theorem delete_path_confirm_success (allowed : List String) (fs : Fs)
    (store : Store) (tL tN : Nat) (ft tok p : String) (rec : Bool)
    (c : Confirmation)
    (htok : pyIsEmpty tok = false)
    (hallow : allowed.any (fun a => pyStartsWith (pyLower p) (pyLower a)) = true)
    (hlk : List.lookup tok store = some c)
    (hload : tL < c.expiry) (hunexp : tN ≤ c.expiry)
    (hp : c.path = p) (hr : c.recursive = rec)
    (hdel : deletable fs p rec = true) :
    ∃ msg fs',
      delete_path allowed fs store tL tN ft ⟨p, rec, some tok⟩ =
        (.ok msg, fs', storeDel (load_confirmations store tL) tok) ∧
      fsExists fs' p = false := by
  have hnorm : normalize_path allowed p = .ok p := by
    simp [normalize_path, hallow]
  have hlk' : List.lookup tok (load_confirmations store tL) = some c :=
    lookup_load_eq_some store tok c tL hlk hload
  have hne : ¬ tN > c.expiry := by omega
  cases hlp : List.lookup p fs with
  | none =>
    exfalso
    simp [deletable, fsIsFile, fsIsDir, hlp] at hdel
  | some entry =>
    have hex : fsExists fs p = true := by simp [fsExists, hlp]
    cases entry with
    | file content =>
      have hf : fsIsFile fs p = true := by simp [fsIsFile, hlp]
      refine ⟨"Successfully deleted file: " ++ p, fsErase fs p, ?_,
        fsExists_fsErase_self fs p⟩
      simp [delete_path, hnorm, truthyToken, htok, hlk', hne, hp, hr, hex, hf]
    | dir =>
      have hf : fsIsFile fs p = false := by simp [fsIsFile, hlp]
      have hd : fsIsDir fs p = true := by simp [fsIsDir, hlp]
      cases hrec : rec with
      | true =>
        refine ⟨"Successfully deleted directory recursively: " ++ p,
          fsRmtree fs p, ?_, fsExists_fsRmtree_self fs p⟩
        simp [delete_path, hnorm, truthyToken, htok, hlk', hne, hp, hr, hex, hf,
          hd, hrec]
      | false =>
        have hch : fsHasChildren fs p = false := by
          rw [hrec] at hdel
          simp [deletable, hf, hd] at hdel
          simpa using hdel
        refine ⟨"Successfully deleted empty directory: " ++ p,
          fsErase fs p, ?_, fsExists_fsErase_self fs p⟩
        simp [delete_path, hnorm, truthyToken, htok, hlk', hne, hp, hr, hex, hf,
          hd, hrec, hch]

/-- C2: a delete request without a confirmation token never modifies the
filesystem; with a live, unexpired, matching token it removes the target
exactly once and consumes the token; reusing the same token immediately
afterwards fails with `invalidToken` and changes nothing. -/
theorem delete_two_phase_protocol :
    (∀ (allowed : List String) (fs : Fs) (store : Store) (tL tN : Nat)
       (ft : String) (data : DeletePathReq),
       data.confirmation_token = none →
       (delete_path allowed fs store tL tN ft data).2.1 = fs) ∧
    (∀ (allowed : List String) (fs : Fs) (store : Store)
       (tL tN tL2 tN2 : Nat) (ft ft2 tok p : String) (rec : Bool)
       (c : Confirmation),
       pyIsEmpty tok = false →
       allowed.any (fun a => pyStartsWith (pyLower p) (pyLower a)) = true →
       List.lookup tok store = some c →
       tL < c.expiry → tN ≤ c.expiry →
       c.path = p → c.recursive = rec →
       deletable fs p rec = true →
       ∃ msg fs',
         delete_path allowed fs store tL tN ft ⟨p, rec, some tok⟩ =
           (.ok msg, fs', storeDel (load_confirmations store tL) tok) ∧
         fsExists fs' p = false ∧
         delete_path allowed fs' (storeDel (load_confirmations store tL) tok)
             tL2 tN2 ft2 ⟨p, rec, some tok⟩ =
           (.err .invalidToken, fs',
            storeDel (load_confirmations store tL) tok)) := by
  constructor
  · intro allowed fs store tL tN ft data h
    rcases hn : normalize_path allowed data.path with e | pth
    · simp [delete_path, hn]
    · simp only [delete_path, hn, h, truthyToken]
      split
      · rfl
      · rfl
  · intro allowed fs store tL tN tL2 tN2 ft ft2 tok p rec c htok hallow hlk
      hload hunexp hp hr hdel
    obtain ⟨msg, fs', heq, hex⟩ :=
      delete_path_confirm_success allowed fs store tL tN ft tok p rec c htok
        hallow hlk hload hunexp hp hr hdel
    refine ⟨msg, fs', heq, hex, ?_⟩
    have hnorm : normalize_path allowed p = .ok p := by
      simp [normalize_path, hallow]
    have h1 : List.lookup tok (storeDel (load_confirmations store tL) tok) =
        none := lookup_filter_ne_self tok _
    have h2 : List.lookup tok
        (load_confirmations (storeDel (load_confirmations store tL) tok) tL2) =
        none := lookup_filter_eq_none_of_none tok _ _ h1
    simp [delete_path, hnorm, truthyToken, htok, h2]

/-- Witness for `delete_two_phase_protocol` at concrete input. -/
theorem delete_two_phase_protocol_witness :
    (delete_path ["/data"] [("/data/f", .file [])] [] 0 0 "ab12c"
        ⟨"/data/f", false, none⟩).2.1 = [("/data/f", .file [])] ∧
    ∃ msg fs',
      delete_path ["/data"] [("/data/f", .file [])]
          [("ab12c", ⟨"/data/f", false, 60⟩)] 10 10 "zzzzz"
          ⟨"/data/f", false, some "ab12c"⟩ =
        (.ok msg, fs',
         storeDel (load_confirmations [("ab12c", ⟨"/data/f", false, 60⟩)] 10)
           "ab12c") ∧
      fsExists fs' "/data/f" = false ∧
      delete_path ["/data"] fs'
          (storeDel (load_confirmations [("ab12c", ⟨"/data/f", false, 60⟩)] 10)
            "ab12c") 10 10 "yyyyy" ⟨"/data/f", false, some "ab12c"⟩ =
        (.err .invalidToken, fs',
         storeDel (load_confirmations [("ab12c", ⟨"/data/f", false, 60⟩)] 10)
           "ab12c") :=
  ⟨delete_two_phase_protocol.1 ["/data"] [("/data/f", .file [])] [] 0 0 "ab12c"
      ⟨"/data/f", false, none⟩ rfl,
   delete_two_phase_protocol.2 ["/data"] [("/data/f", .file [])]
      [("ab12c", ⟨"/data/f", false, 60⟩)] 10 10 10 10 "zzzzz" "yyyyy" "ab12c"
      "/data/f" false ⟨"/data/f", false, 60⟩ (by decide) (by decide) (by decide)
      (by decide) (by decide) rfl rfl (by decide)⟩

/-- C10: a phase-2 request whose token is live and unexpired but whose
path or recursive flag differs from the stored confirmation fails with
`parameterMismatch`, the persisted store and filesystem are untouched,
and a later request with the same token and the originally stored
parameters (before expiry) still succeeds. -/
theorem parameter_mismatch_preserves_token :
    ∀ (allowed : List String) (fs : Fs) (store : Store)
      (tL tN tL2 tN2 : Nat) (ft ft2 tok p : String) (rec : Bool)
      (c : Confirmation) (content : List Char),
      pyIsEmpty tok = false →
      allowed.any (fun a => pyStartsWith (pyLower p) (pyLower a)) = true →
      allowed.any (fun a => pyStartsWith (pyLower c.path) (pyLower a)) = true →
      List.lookup tok store = some c →
      tL < c.expiry → tN ≤ c.expiry →
      (c.path ≠ p ∨ c.recursive ≠ rec) →
      tL2 < c.expiry → tN2 ≤ c.expiry →
      List.lookup c.path fs = some (.file content) →
      delete_path allowed fs store tL tN ft ⟨p, rec, some tok⟩ =
        (.err .parameterMismatch, fs, store) ∧
      ∃ msg fs',
        delete_path allowed fs store tL2 tN2 ft2
            ⟨c.path, c.recursive, some tok⟩ =
          (.ok msg, fs', storeDel (load_confirmations store tL2) tok) ∧
        fsExists fs' c.path = false := by
  intro allowed fs store tL tN tL2 tN2 ft ft2 tok p rec c content htok hallow
    hallowc hlk hload hunexp hmis hload2 hunexp2 hfile
  constructor
  · have hnorm : normalize_path allowed p = .ok p := by
      simp [normalize_path, hallow]
    have hlk' : List.lookup tok (load_confirmations store tL) = some c :=
      lookup_load_eq_some store tok c tL hlk hload
    have hne : ¬ tN > c.expiry := by omega
    have hbne : (c.path != p || c.recursive != rec) = true := by
      rcases hmis with h | h
      · simp [bne_iff_ne, h]
      · simp [bne_iff_ne, h]
    simp [delete_path, hnorm, truthyToken, htok, hlk', hne, hbne]
  · exact delete_path_confirm_success allowed fs store tL2 tN2 ft2 tok c.path
      c.recursive c htok hallowc hlk hload2 hunexp2 rfl rfl
      (by simp [deletable, fsIsFile, hfile])

/-- Witness for `parameter_mismatch_preserves_token` at concrete input. -/
theorem parameter_mismatch_preserves_token_witness :
    delete_path ["/data"] [("/data/f", .file [])]
        [("ab12c", ⟨"/data/f", false, 60⟩)] 10 10 "zzzzz"
        ⟨"/data/f", true, some "ab12c"⟩ =
      (.err .parameterMismatch, [("/data/f", .file [])],
       [("ab12c", ⟨"/data/f", false, 60⟩)]) ∧
    ∃ msg fs',
      delete_path ["/data"] [("/data/f", .file [])]
          [("ab12c", ⟨"/data/f", false, 60⟩)] 20 20 "yyyyy"
          ⟨"/data/f", false, some "ab12c"⟩ =
        (.ok msg, fs',
         storeDel (load_confirmations [("ab12c", ⟨"/data/f", false, 60⟩)] 20)
           "ab12c") ∧
      fsExists fs' "/data/f" = false :=
  parameter_mismatch_preserves_token ["/data"] [("/data/f", .file [])]
    [("ab12c", ⟨"/data/f", false, 60⟩)] 10 10 20 20 "zzzzz" "yyyyy" "ab12c"
    "/data/f" true ⟨"/data/f", false, 60⟩ [] (by decide) (by decide) (by decide)
    (by decide) (by decide) (by decide) (Or.inr (by decide)) (by decide)
    (by decide) (by decide)

/-- C3 counterexample: a matched, unexpired confirmation whose deletion
attempt then fails (non-recursive delete of a non-empty directory) still
consumes the token — the store comes back empty although no deletion
succeeded (the request surfaces the generic 500 wrapping the
directory-not-empty failure), no expiry was detected, and no restart
happened. -/
theorem token_consumed_on_failed_deletion_cex :
    delete_path ["/data"] [("/data/d", .dir), ("/data/d/f", .file [])]
        [("ab12c", ⟨"/data/d", false, 60⟩)] 10 10 "zzzzz"
        ⟨"/data/d", false, some "ab12c"⟩ =
      (.err (.exceptionWrapped .directoryNotEmpty),
       [("/data/d", .dir), ("/data/d/f", .file [])], []) := by decide

/-- C3 amended: the persisted store drops a token exactly on a matched,
unexpired phase-2 confirmation attempt (whether or not the deletion then
succeeds), on expiry detection, or at startup; invalid-token,
parameter-mismatch, access-denied and phase-1 outcomes leave the
persisted store as it was (phase 1 adds the freshly drawn binding and
preserves every other live token). -/
theorem token_lifecycle :
    (∀ (allowed : List String) (fs : Fs) (store : Store) (tL tN : Nat)
       (ft p tok : String) (rec : Bool),
       pyIsEmpty tok = false →
       allowed.any (fun a => pyStartsWith (pyLower p) (pyLower a)) = true →
       List.lookup tok (load_confirmations store tL) = none →
       delete_path allowed fs store tL tN ft ⟨p, rec, some tok⟩ =
         (.err .invalidToken, fs, store)) ∧
    (∀ (allowed : List String) (fs : Fs) (store : Store) (tL tN : Nat)
       (ft p tok : String) (rec : Bool) (c : Confirmation),
       pyIsEmpty tok = false →
       allowed.any (fun a => pyStartsWith (pyLower p) (pyLower a)) = true →
       List.lookup tok (load_confirmations store tL) = some c →
       tN > c.expiry →
       delete_path allowed fs store tL tN ft ⟨p, rec, some tok⟩ =
         (.err .tokenExpired, fs, storeDel (load_confirmations store tL) tok)) ∧
    (∀ (allowed : List String) (fs : Fs) (store : Store) (tL tN : Nat)
       (ft p tok : String) (rec : Bool) (c : Confirmation),
       pyIsEmpty tok = false →
       allowed.any (fun a => pyStartsWith (pyLower p) (pyLower a)) = true →
       List.lookup tok (load_confirmations store tL) = some c →
       tN ≤ c.expiry → (c.path ≠ p ∨ c.recursive ≠ rec) →
       delete_path allowed fs store tL tN ft ⟨p, rec, some tok⟩ =
         (.err .parameterMismatch, fs, store)) ∧
    (∀ (allowed : List String) (fs : Fs) (store : Store) (tL tN : Nat)
       (ft p tok : String) (rec : Bool) (c : Confirmation),
       pyIsEmpty tok = false →
       allowed.any (fun a => pyStartsWith (pyLower p) (pyLower a)) = true →
       List.lookup tok (load_confirmations store tL) = some c →
       tN ≤ c.expiry → c.path = p → c.recursive = rec →
       (delete_path allowed fs store tL tN ft ⟨p, rec, some tok⟩).2.2 =
         storeDel (load_confirmations store tL) tok) ∧
    (∀ (allowed : List String) (fs : Fs) (store : Store) (tL tN : Nat)
       (ft : String) (data : DeletePathReq) (e : ApiError),
       normalize_path allowed data.path = .error e →
       (delete_path allowed fs store tL tN ft data).2.2 = store) ∧
    (∀ (allowed : List String) (fs : Fs) (store : Store) (tL tN : Nat)
       (ft p : String) (rec : Bool),
       allowed.any (fun a => pyStartsWith (pyLower p) (pyLower a)) = true →
       fsExists fs p = false →
       delete_path allowed fs store tL tN ft ⟨p, rec, none⟩ =
         (.err .notFound, fs, store)) ∧
    (∀ (allowed : List String) (fs : Fs) (store : Store) (tL tN : Nat)
       (ft p tok' : String) (rec : Bool),
       allowed.any (fun a => pyStartsWith (pyLower p) (pyLower a)) = true →
       fsExists fs p = true → tok' ≠ ft →
       List.lookup tok'
           (delete_path allowed fs store tL tN ft ⟨p, rec, none⟩).2.2 =
         List.lookup tok' (load_confirmations store tL)) ∧
    (∀ s : Store, startupStore s = []) := by
  refine ⟨?_, ?_, ?_, ?_, ?_, ?_, ?_, fun _ => rfl⟩
  · intro allowed fs store tL tN ft p tok rec htok hallow hlk
    have hnorm : normalize_path allowed p = .ok p := by
      simp [normalize_path, hallow]
    simp [delete_path, hnorm, truthyToken, htok, hlk]
  · intro allowed fs store tL tN ft p tok rec c htok hallow hlk hexp
    have hnorm : normalize_path allowed p = .ok p := by
      simp [normalize_path, hallow]
    simp [delete_path, hnorm, truthyToken, htok, hlk, hexp]
  · intro allowed fs store tL tN ft p tok rec c htok hallow hlk hunexp hmis
    have hnorm : normalize_path allowed p = .ok p := by
      simp [normalize_path, hallow]
    have hne : ¬ tN > c.expiry := by omega
    have hbne : (c.path != p || c.recursive != rec) = true := by
      rcases hmis with h | h
      · simp [bne_iff_ne, h]
      · simp [bne_iff_ne, h]
    simp [delete_path, hnorm, truthyToken, htok, hlk, hne, hbne]
  · intro allowed fs store tL tN ft p tok rec c htok hallow hlk hunexp hp hr
    have hnorm : normalize_path allowed p = .ok p := by
      simp [normalize_path, hallow]
    have hne : ¬ tN > c.expiry := by omega
    cases hlp : List.lookup p fs with
    | none =>
      simp [delete_path, hnorm, truthyToken, htok, hlk, hne, hp, hr,
        fsExists, hlp]
    | some entry =>
      cases entry with
      | file content =>
        simp [delete_path, hnorm, truthyToken, htok, hlk, hne, hp, hr,
          fsExists, fsIsFile, hlp]
      | dir =>
        cases hrec : rec with
        | true =>
          simp [delete_path, hnorm, truthyToken, htok, hlk, hne, hp, hr,
            hrec, fsExists, fsIsFile, fsIsDir, hlp]
        | false =>
          cases hch : fsHasChildren fs p with
          | true =>
            simp [delete_path, hnorm, truthyToken, htok, hlk, hne, hp, hr,
              hrec, fsExists, fsIsFile, fsIsDir, hlp, hch]
          | false =>
            simp [delete_path, hnorm, truthyToken, htok, hlk, hne, hp, hr,
              hrec, fsExists, fsIsFile, fsIsDir, hlp, hch]
  · intro allowed fs store tL tN ft data e h
    simp [delete_path, h]
  · intro allowed fs store tL tN ft p rec hallow hex
    have hnorm : normalize_path allowed p = .ok p := by
      simp [normalize_path, hallow]
    simp [delete_path, hnorm, truthyToken, hex]
  · intro allowed fs store tL tN ft p tok' rec hallow hex hne
    have hnorm : normalize_path allowed p = .ok p := by
      simp [normalize_path, hallow]
    have hres : delete_path allowed fs store tL tN ft ⟨p, rec, none⟩ =
        (.confirm ("`Confirm deletion of file: " ++ p ++ " with token "
            ++ ft ++ "`") ft (tN + CONFIRMATION_TTL_SECONDS),
         fs, storeSet (load_confirmations store tL) ft
           ⟨p, rec, tN + CONFIRMATION_TTL_SECONDS⟩) := by
      simp [delete_path, hnorm, truthyToken, hex]
    rw [hres]
    have hbeq : (tok' == ft) = false := by simpa using hne
    simp only [storeSet, storeDel, List.lookup, hbeq]
    exact lookup_filter_ne_other ft tok' hne (load_confirmations store tL)

/-- Witness for `token_lifecycle` at concrete inputs. -/
theorem token_lifecycle_witness :
    delete_path ["/data"] [("/data/f", .file [])] [] 0 0 "zzzzz"
        ⟨"/data/f", false, some "ab12c"⟩ =
      (.err .invalidToken, [("/data/f", .file [])], []) ∧
    delete_path ["/data"] [("/data/f", .file [])]
        [("ab12c", ⟨"/data/f", false, 15⟩)] 10 20 "zzzzz"
        ⟨"/data/f", false, some "ab12c"⟩ =
      (.err .tokenExpired, [("/data/f", .file [])],
       storeDel (load_confirmations [("ab12c", ⟨"/data/f", false, 15⟩)] 10)
         "ab12c") ∧
    delete_path ["/data"] [("/data/f", .file [])]
        [("ab12c", ⟨"/data/g", false, 60⟩)] 10 10 "zzzzz"
        ⟨"/data/f", false, some "ab12c"⟩ =
      (.err .parameterMismatch, [("/data/f", .file [])],
       [("ab12c", ⟨"/data/g", false, 60⟩)]) ∧
    (delete_path ["/data"] [("/data/d", .dir), ("/data/d/f", .file [])]
        [("ab12c", ⟨"/data/d", false, 60⟩)] 10 10 "zzzzz"
        ⟨"/data/d", false, some "ab12c"⟩).2.2 =
      storeDel (load_confirmations [("ab12c", ⟨"/data/d", false, 60⟩)] 10)
        "ab12c" ∧
    (delete_path ["/data"] [] [("ab12c", ⟨"/data/f", false, 60⟩)] 0 0 "zzzzz"
        ⟨"/etc/passwd", false, some "ab12c"⟩).2.2 =
      [("ab12c", ⟨"/data/f", false, 60⟩)] ∧
    delete_path ["/data"] [] [("ab12c", ⟨"/data/f", false, 60⟩)] 0 0 "zzzzz"
        ⟨"/data/x", false, none⟩ =
      (.err .notFound, [], [("ab12c", ⟨"/data/f", false, 60⟩)]) ∧
    List.lookup "ab12c"
        (delete_path ["/data"] [("/data/y", .file [])]
          [("ab12c", ⟨"/data/f", false, 60⟩)] 0 0 "zzzzz"
          ⟨"/data/y", false, none⟩).2.2 =
      List.lookup "ab12c"
        (load_confirmations [("ab12c", ⟨"/data/f", false, 60⟩)] 0) ∧
    startupStore [("ab12c", ⟨"/data/f", false, 60⟩)] = [] :=
  ⟨token_lifecycle.1 ["/data"] [("/data/f", .file [])] [] 0 0 "zzzzz"
      "/data/f" "ab12c" false (by decide) (by decide) (by decide),
   token_lifecycle.2.1 ["/data"] [("/data/f", .file [])]
      [("ab12c", ⟨"/data/f", false, 15⟩)] 10 20 "zzzzz" "/data/f" "ab12c"
      false ⟨"/data/f", false, 15⟩ (by decide) (by decide) (by decide)
      (by decide),
   token_lifecycle.2.2.1 ["/data"] [("/data/f", .file [])]
      [("ab12c", ⟨"/data/g", false, 60⟩)] 10 10 "zzzzz" "/data/f" "ab12c"
      false ⟨"/data/g", false, 60⟩ (by decide) (by decide) (by decide)
      (by decide) (Or.inl (by decide)),
   token_lifecycle.2.2.2.1 ["/data"] [("/data/d", .dir), ("/data/d/f", .file [])]
      [("ab12c", ⟨"/data/d", false, 60⟩)] 10 10 "zzzzz" "/data/d" "ab12c"
      false ⟨"/data/d", false, 60⟩ (by decide) (by decide) (by decide)
      (by decide) rfl rfl,
   token_lifecycle.2.2.2.2.1 ["/data"] [] [("ab12c", ⟨"/data/f", false, 60⟩)]
      0 0 "zzzzz" ⟨"/etc/passwd", false, some "ab12c"⟩
      (.accessDenied "/etc/passwd" ["/data"]) (by decide),
   token_lifecycle.2.2.2.2.2.1 ["/data"] [] [("ab12c", ⟨"/data/f", false, 60⟩)]
      0 0 "zzzzz" "/data/x" false (by decide) (by decide),
   token_lifecycle.2.2.2.2.2.2.1 ["/data"] [("/data/y", .file [])]
      [("ab12c", ⟨"/data/f", false, 60⟩)] 0 0 "zzzzz" "/data/y" "ab12c" false
      (by decide) (by decide) (by decide),
   token_lifecycle.2.2.2.2.2.2.2 [("ab12c", ⟨"/data/f", false, 60⟩)]⟩

/-- C4 counterexample: a token whose expiry (5) elapsed before the
request (both clock samples at 10), with path and recursive flag
matching the stored confirmation, fails with `invalidToken` — the
expired record is purged during load, so the distinct `tokenExpired`
branch is never reached. -/
theorem expired_token_fails_invalidToken_cex :
    delete_path ["/data"] [("/data/f", .file [])]
        [("ab12c", ⟨"/data/f", false, 5⟩)] 10 10 "zzzzz"
        ⟨"/data/f", false, some "ab12c"⟩ =
      (.err .invalidToken, [("/data/f", .file [])],
       [("ab12c", ⟨"/data/f", false, 5⟩)]) ∧
    (5 : Nat) < 10 := by decide

/-- C4 amended: a token whose expiry elapsed on or before the load-time
clock sample is purged during load, so the request fails `invalidToken`
even when the parameters match; the distinct `tokenExpired` error occurs
exactly when the token survives the load (expiry after the load sample)
but the handler's later clock sample has passed the expiry. -/
theorem token_expiry_behaviour :
    (∀ (allowed : List String) (fs : Fs) (store : Store) (tL tN : Nat)
       (ft p tok : String) (rec : Bool),
       pyIsEmpty tok = false →
       allowed.any (fun a => pyStartsWith (pyLower p) (pyLower a)) = true →
       (∀ c : Confirmation, (tok, c) ∈ store → c.expiry ≤ tL) →
       delete_path allowed fs store tL tN ft ⟨p, rec, some tok⟩ =
         (.err .invalidToken, fs, store)) ∧
    (∀ (allowed : List String) (fs : Fs) (store : Store) (tL tN : Nat)
       (ft p tok : String) (rec : Bool) (c : Confirmation),
       pyIsEmpty tok = false →
       allowed.any (fun a => pyStartsWith (pyLower p) (pyLower a)) = true →
       List.lookup tok store = some c →
       tL < c.expiry → tN > c.expiry →
       delete_path allowed fs store tL tN ft ⟨p, rec, some tok⟩ =
         (.err .tokenExpired, fs,
          storeDel (load_confirmations store tL) tok)) := by
  constructor
  · intro allowed fs store tL tN ft p tok rec htok hallow helapsed
    have hnorm : normalize_path allowed p = .ok p := by
      simp [normalize_path, hallow]
    have hlk : List.lookup tok (load_confirmations store tL) = none :=
      lookup_load_none_of_elapsed store tok tL helapsed
    simp [delete_path, hnorm, truthyToken, htok, hlk]
  · intro allowed fs store tL tN ft p tok rec c htok hallow hlk hload hexp
    have hnorm : normalize_path allowed p = .ok p := by
      simp [normalize_path, hallow]
    have hlk' : List.lookup tok (load_confirmations store tL) = some c :=
      lookup_load_eq_some store tok c tL hlk hload
    simp [delete_path, hnorm, truthyToken, htok, hlk', hexp]

/-- Witness for `token_expiry_behaviour` at concrete inputs. -/
theorem token_expiry_behaviour_witness :
    delete_path ["/data"] [("/data/f", .file [])]
        [("ab12c", ⟨"/data/f", false, 7⟩)] 12 12 "zzzzz"
        ⟨"/data/f", false, some "ab12c"⟩ =
      (.err .invalidToken, [("/data/f", .file [])],
       [("ab12c", ⟨"/data/f", false, 7⟩)]) ∧
    delete_path ["/data"] [("/data/f", .file [])]
        [("ab12c", ⟨"/data/f", false, 15⟩)] 12 18 "zzzzz"
        ⟨"/data/f", false, some "ab12c"⟩ =
      (.err .tokenExpired, [("/data/f", .file [])],
       storeDel (load_confirmations [("ab12c", ⟨"/data/f", false, 15⟩)] 12)
         "ab12c") :=
  ⟨token_expiry_behaviour.1 ["/data"] [("/data/f", .file [])]
      [("ab12c", ⟨"/data/f", false, 7⟩)] 12 12 "zzzzz" "/data/f" "ab12c" false
      (by decide) (by decide)
      (by
        intro c hc
        simp only [List.mem_singleton] at hc
        have h2 : c = ⟨"/data/f", false, 7⟩ := congrArg Prod.snd hc
        rw [h2]
        decide),
   token_expiry_behaviour.2 ["/data"] [("/data/f", .file [])]
      [("ab12c", ⟨"/data/f", false, 15⟩)] 12 18 "zzzzz" "/data/f" "ab12c"
      false ⟨"/data/f", false, 15⟩ (by decide) (by decide) (by decide)
      (by decide) (by decide)⟩

/-- C5 counterexample: the store holds a live pending confirmation under
token `aaaaa` (for `/data/x`); a phase-1 delete of `/data/y` whose
random draw also produces `aaaaa` returns that same token and rebinds it
to `/data/y` — the existing pending confirmation is overwritten, so the
generated token is not guaranteed distinct from live tokens. -/
theorem phase1_token_collision_cex :
    List.lookup "aaaaa" ([("aaaaa", ⟨"/data/x", false, 100⟩)] : Store) =
      some ⟨"/data/x", false, 100⟩ ∧
    delete_path ["/data"] [("/data/y", .file [])]
        [("aaaaa", ⟨"/data/x", false, 100⟩)] 0 0 "aaaaa"
        ⟨"/data/y", false, none⟩ =
      (.confirm "`Confirm deletion of file: /data/y with token aaaaa`"
        "aaaaa" 60,
       [("/data/y", .file [])],
       [("aaaaa", ⟨"/data/y", false, 60⟩)]) := by decide

/-- C5 amended: phase 1 stores the confirmation under whatever token the
random draw produced, with no distinctness check against live tokens;
recording is plain keyed assignment, so a colliding draw replaces the
existing pending confirmation for that token. -/
theorem phase1_token_recording :
    (∀ (allowed : List String) (fs : Fs) (store : Store) (tL tN : Nat)
       (ft p : String) (rec : Bool),
       allowed.any (fun a => pyStartsWith (pyLower p) (pyLower a)) = true →
       fsExists fs p = true →
       delete_path allowed fs store tL tN ft ⟨p, rec, none⟩ =
         (.confirm ("`Confirm deletion of file: " ++ p ++ " with token "
             ++ ft ++ "`") ft (tN + CONFIRMATION_TTL_SECONDS),
          fs,
          storeSet (load_confirmations store tL) ft
            ⟨p, rec, tN + CONFIRMATION_TTL_SECONDS⟩)) ∧
    (∀ (s : Store) (k : String) (c : Confirmation),
       List.lookup k (storeSet s k c) = some c) := by
  constructor
  · intro allowed fs store tL tN ft p rec hallow hex
    have hnorm : normalize_path allowed p = .ok p := by
      simp [normalize_path, hallow]
    simp [delete_path, hnorm, truthyToken, hex]
  · intro s k c
    simp [storeSet, List.lookup]

/-- Witness for `phase1_token_recording` at concrete inputs. -/
theorem phase1_token_recording_witness :
    delete_path ["/data"] [("/data/y", .file [])]
        [("bb345", ⟨"/data/x", false, 100⟩)] 0 0 "cc678"
        ⟨"/data/y", true, none⟩ =
      (.confirm "`Confirm deletion of file: /data/y with token cc678`"
        "cc678" 60,
       [("/data/y", .file [])],
       storeSet (load_confirmations [("bb345", ⟨"/data/x", false, 100⟩)] 0)
         "cc678" ⟨"/data/y", true, 60⟩) ∧
    List.lookup "bb345"
        (storeSet [("bb345", ⟨"/data/x", false, 100⟩)] "bb345"
          ⟨"/data/y", false, 60⟩) =
      some ⟨"/data/y", false, 60⟩ :=
  ⟨phase1_token_recording.1 ["/data"] [("/data/y", .file [])]
      [("bb345", ⟨"/data/x", false, 100⟩)] 0 0 "cc678" "/data/y" true
      (by decide) (by decide),
   phase1_token_recording.2 [("bb345", ⟨"/data/x", false, 100⟩)] "bb345"
      ⟨"/data/y", false, 60⟩⟩

/-- C9 counterexample: directory `/data/sub` matches the exclude pattern
`sub`, yet the file `/data/sub/inner/report.txt`, which lies beneath it,
still appears in the results — the walk keeps descending into excluded
directories and only skips their immediate entries. -/
theorem search_files_descends_into_excluded_cex :
    pathMatch "/data/sub" "sub" = true ∧
    pyStartsWith "/data/sub/inner/report.txt" ("/data/sub" ++ "/") = true ∧
    search_files ["/data"] "/data"
        [.dir "sub" [.dir "inner" [.file "report.txt"]]] "report" ["sub"] =
      ["/data/sub/inner/report.txt"] := by
  refine ⟨by decide, by decide, ?_⟩
  simp [search_files, osWalk, osWalkChildren, dirNames, fileNames]
  decide

/-- C9 amended: a result appears iff some walked directory (the walk
visits every directory, including those beneath excluded ones) does not
itself match an exclude pattern and contributes a name containing the
search pattern case-insensitively whose full path starts with an allowed
root.  Exclusion skips only the matching directory's own entries; it
does not prune the descent. -/
theorem search_files_membership :
    ∀ (allowed : List String) (base : String) (kids : List FsTree)
      (pat : String) (ex : List String) (res : String),
      res ∈ search_files allowed base kids pat ex ↔
        ∃ entry ∈ osWalk base kids,
          ex.any (fun ep => pathMatch entry.1 ep) = false ∧
          ∃ item ∈ entry.2.2 ++ entry.2.1,
            pyIn (pyLower pat).data (pyLower item).data = true ∧
            allowed.any
              (fun a => pyStartsWith (entry.1 ++ "/" ++ item) a) = true ∧
            res = entry.1 ++ "/" ++ item := by
  intro allowed base kids pat ex res
  simp only [search_files, List.mem_flatMap]
  constructor
  · rintro ⟨entry, hmem, hres⟩
    cases hex : ex.any (fun ep => pathMatch entry.1 ep) with
    | true =>
      rw [hex] at hres
      simp at hres
    | false =>
      rw [hex] at hres
      simp only [Bool.false_eq_true, if_false] at hres
      obtain ⟨item, hitem, hfm⟩ := List.mem_filterMap.mp hres
      refine ⟨entry, hmem, hex, item, hitem, ?_⟩
      by_cases h1 : pyIn (pyLower pat).data (pyLower item).data = true
      · rw [if_pos h1] at hfm
        by_cases h2 : allowed.any
            (fun a => pyStartsWith (entry.1 ++ "/" ++ item) a) = true
        · rw [if_pos h2] at hfm
          exact ⟨h1, h2, (Option.some_inj.mp hfm).symm⟩
        · rw [if_neg h2] at hfm
          cases hfm
      · rw [if_neg h1] at hfm
        cases hfm
  · rintro ⟨entry, hmem, hex, item, hitem, hin, hal, heq⟩
    refine ⟨entry, hmem, ?_⟩
    rw [hex]
    simp only [Bool.false_eq_true, if_false]
    exact List.mem_filterMap.mpr ⟨item, hitem, by rw [if_pos hin, if_pos hal, heq]⟩
